import Mathlib

/-!
Shallow embedding of `larsim/IonizationScintillation/ISCalcCorrelated.cxx`.

Real (`ℝ`) arithmetic stands in for C++ `double`/`float`.  Every division in
the translated computation goes through the guarded division `div?`, which
returns `none` exactly when the divisor is zero, so that division-by-zero
reachability becomes a provable statement about the embedding.
-/

namespace LArSim

/-- Guarded real division: `none` exactly when the divisor is `0`. -/
noncomputable def div? (a b : ℝ) : Option ℝ :=
  if b = 0 then none else some (a / b)

/-- Record `sim::SimEnergyDeposit` as consumed by the calculator: deposited energy
(MeV), step length (cm), midpoint position, PDG particle code. -/
structure SimEnergyDeposit where
  energy : ℝ
  stepLength : ℝ
  midPoint : ℝ × ℝ × ℝ
  pdgCode : ℤ

/-- The space-charge (field-distortion) provider: an enable flag and the
per-position field-offset vector, from `spacecharge::SpaceChargeService`. -/
structure SpaceCharge where
  enableSimEfieldSCE : Bool
  getEfieldOffsets : ℝ × ℝ × ℝ → ℝ × ℝ × ℝ

/-- The LAr-properties provider fields used by `ISCalcCorrelated`. -/
structure LArProperties where
  scintPreScale : ℝ
  scintByParticleType : Bool
  scintYieldRatio : ℝ
  protonScintYieldRatio : ℝ
  muonScintYieldRatio : ℝ
  pionScintYieldRatio : ℝ
  kaonScintYieldRatio : ℝ
  alphaScintYieldRatio : ℝ
  electronScintYieldRatio : ℝ

/-- The `sim::LArG4Parameters` fields read in the constructor. -/
structure LArG4Parameters where
  recombA : ℝ
  recombk : ℝ
  modBoxA : ℝ
  modBoxB : ℝ
  useModBoxRecomb : Bool
  useModLarqlRecomb : Bool
  larqlChi0A : ℝ
  larqlChi0B : ℝ
  larqlChi0C : ℝ
  larqlChi0D : ℝ
  larqlAlpha : ℝ
  larqlBeta : ℝ
  geVToElectrons : ℝ

/-- Record `detinfo::DetectorPropertiesData` as used here: the ambient field
magnitude `Efield()` and the density at the operating temperature
`Density(Temperature())`. -/
structure DetectorProperties where
  efield : ℝ
  densityAtTemp : ℝ

/-- Record `ISCalcData`: the output record {energy, electrons, photons, yield ratio}. -/
structure ISCalcData where
  energyDeposit : ℝ
  numElectrons : ℝ
  numPhotons : ℝ
  scintYieldRatio : ℝ

/-- The calculator state: providers plus the constants frozen at construction. -/
structure ISCalcCorrelated where
  fSCE : SpaceCharge
  fLArProp : LArProperties
  fScintPreScale : ℝ
  fRecombA : ℝ
  fRecombk : ℝ
  fModBoxA : ℝ
  fModBoxB : ℝ
  fUseModBoxRecomb : Bool
  fUseModLarqlRecomb : Bool
  fLarqlChi0A : ℝ
  fLarqlChi0B : ℝ
  fLarqlChi0C : ℝ
  fLarqlChi0D : ℝ
  fLarqlAlpha : ℝ
  fLarqlBeta : ℝ
  fGeVToElectrons : ℝ
  fWion : ℝ
  fWph : ℝ

/-- The `ISCalcCorrelated` constructor: stores the providers, normalizes the
density-dependent coefficients, derives the ionization work function from
`GeVToElectrons`, and fixes the ion+excitation work function at 19.5 eV
(`19.5e-6` MeV). -/
noncomputable def ISCalcCorrelated.init (sce : SpaceCharge) (larProp : LArProperties)
    (p : LArG4Parameters) (detProp : DetectorProperties) : ISCalcCorrelated :=
  { fSCE := sce
    fLArProp := larProp
    fScintPreScale := larProp.scintPreScale
    fRecombA := p.recombA
    fRecombk := p.recombk / detProp.densityAtTemp
    fModBoxA := p.modBoxA
    fModBoxB := p.modBoxB / detProp.densityAtTemp
    fUseModBoxRecomb := p.useModBoxRecomb
    fUseModLarqlRecomb := p.useModLarqlRecomb
    fLarqlChi0A := p.larqlChi0A
    fLarqlChi0B := p.larqlChi0B
    fLarqlChi0C := p.larqlChi0C
    fLarqlChi0D := p.larqlChi0D
    fLarqlAlpha := p.larqlAlpha
    fLarqlBeta := p.larqlBeta
    fGeVToElectrons := p.geVToElectrons
    fWion := 1 / p.geVToElectrons * 1000
    fWph := 19.5 * (1 / 1000000) }

/-- Function `std::hypot(x, y, z)`. -/
noncomputable def hypot3 (x y z : ℝ) : ℝ :=
  Real.sqrt (x ^ 2 + y ^ 2 + z ^ 2)

/-- Method `ISCalcCorrelated::EFieldAtStep`: ambient field unmodified when the
space-charge field distortion is disabled, else scaled by
`hypot(1 + dx, dy, dz)` with the offsets taken at the deposit midpoint. -/
noncomputable def ISCalcCorrelated.EFieldAtStep (c : ISCalcCorrelated) (efield : ℝ)
    (edep : SimEnergyDeposit) : ℝ :=
  if !c.fSCE.enableSimEfieldSCE then efield
  else
    let o := c.fSCE.getEfieldOffsets edep.midPoint
    efield * hypot3 (1 + o.1) o.2.1 o.2.2

/-- Method `ISCalcCorrelated::GetScintYieldRatio`: global ratio when
`ScintByParticleType` is off, else dispatch on the PDG code with the
electron ratio as the default case. -/
def ISCalcCorrelated.GetScintYieldRatio (c : ISCalcCorrelated)
    (edep : SimEnergyDeposit) : ℝ :=
  if !c.fLArProp.scintByParticleType then c.fLArProp.scintYieldRatio
  else if edep.pdgCode = 2212 then c.fLArProp.protonScintYieldRatio
  else if edep.pdgCode = 13 ∨ edep.pdgCode = -13 then c.fLArProp.muonScintYieldRatio
  else if edep.pdgCode = 211 ∨ edep.pdgCode = -211 then c.fLArProp.pionScintYieldRatio
  else if edep.pdgCode = 321 ∨ edep.pdgCode = -321 then c.fLArProp.kaonScintYieldRatio
  else if edep.pdgCode = 1000020040 then c.fLArProp.alphaScintYieldRatio
  else if edep.pdgCode = 11 ∨ edep.pdgCode = -11 ∨ edep.pdgCode = 22 then
    c.fLArProp.electronScintYieldRatio
  else c.fLArProp.electronScintYieldRatio

/-- Method `ISCalcCorrelated::EscapingEFraction` (LArQL chi0 function):
`chi0A / (chi0B + exp(chi0C + chi0D * dEdx))`, division guarded. -/
noncomputable def ISCalcCorrelated.EscapingEFraction (c : ISCalcCorrelated)
    (dEdx : ℝ) : Option ℝ :=
  div? c.fLarqlChi0A (c.fLarqlChi0B + Real.exp (c.fLarqlChi0C + c.fLarqlChi0D * dEdx))

/-- Method `ISCalcCorrelated::FieldCorrection` (LArQL f_corr function):
`exp(-EF / (alpha * log dEdx + beta))`, division guarded. -/
noncomputable def ISCalcCorrelated.FieldCorrection (c : ISCalcCorrelated)
    (EF dEdx : ℝ) : Option ℝ :=
  (div? (-EF) (c.fLarqlAlpha * Real.log dEdx + c.fLarqlBeta)).map Real.exp

/-- The `dEdx` value of `CalcIonAndScint`: `energy / ds` for `ds > 0`, else
`0`, then floor-clamped to `1`. -/
noncomputable def dEdxValue (energy ds : ℝ) : Option ℝ :=
  (if ds ≤ 0 then some (0 : ℝ) else div? energy ds).map fun d =>
    if d < 1 then 1 else d

/-- The recombination-branch of `CalcIonAndScint`: Modified-Box
(`log(A + Xi)/Xi` with `Xi = B * dEdx / E`, zero for a non-positive step)
when `fUseModBoxRecomb`, else the Birks-style `A / (1 + dEdx * k / E)`. -/
noncomputable def ISCalcCorrelated.recombBranch (c : ISCalcCorrelated)
    (ds dEdx EFieldStep : ℝ) : Option ℝ :=
  if c.fUseModBoxRecomb then
    if ds > 0 then do
      let Xi ← div? (c.fModBoxB * dEdx) EFieldStep
      div? (Real.log (c.fModBoxA + Xi)) Xi
    else some 0
  else do
    let t ← div? (dEdx * c.fRecombk) EFieldStep
    div? c.fRecombA (1 + t)

/-- The recombination survival fraction of `CalcIonAndScint`, including the
additive LArQL low-field correction when `fUseModLarqlRecomb` is set. -/
noncomputable def ISCalcCorrelated.recombWithLarql (c : ISCalcCorrelated)
    (ds dEdx EFieldStep : ℝ) : Option ℝ := do
  let recomb ← c.recombBranch ds dEdx EFieldStep
  if c.fUseModLarqlRecomb then do
    let chi ← c.EscapingEFraction dEdx
    let fc ← c.FieldCorrection EFieldStep dEdx
    some (recomb + chi * fc)
  else some recomb

/-- Method `ISCalcCorrelated::CalcIonAndScint`: total quanta `Nq = energy / Wph`,
clamped `dEdx`, effective local field, recombination fraction, then
`electrons = (energy / Wion) * recomb` and
`photons = (Nq - electrons) * scintPreScale`. -/
noncomputable def ISCalcCorrelated.CalcIonAndScint (c : ISCalcCorrelated)
    (detProp : DetectorProperties) (edep : SimEnergyDeposit) : Option ISCalcData := do
  let energy_deposit := edep.energy
  let Nq ← div? energy_deposit c.fWph
  let ds := edep.stepLength
  let dEdx ← dEdxValue energy_deposit ds
  let EFieldStep := c.EFieldAtStep detProp.efield edep
  let recomb ← c.recombWithLarql ds dEdx EFieldStep
  let num_electrons ← (div? energy_deposit c.fWion).map fun q => q * recomb
  let num_photons := (Nq - num_electrons) * c.fScintPreScale
  some ⟨energy_deposit, num_electrons, num_photons, c.GetScintYieldRatio edep⟩

/-! ## Concrete configurations for witnesses and counterexamples -/

/-- A space-charge provider with field distortion disabled. -/
def sceOff : SpaceCharge := ⟨false, fun _ => (0, 0, 0)⟩

/-- LAr properties with per-particle-type yields disabled, unit pre-scale. -/
noncomputable def larOff : LArProperties :=
  ⟨1, false, 1/2, 1/2, 1/2, 1/2, 1/2, 1/2, 1/2⟩

/-- LAr properties with per-particle-type yields enabled and distinct ratios. -/
noncomputable def larPerType : LArProperties :=
  ⟨1, true, 1/10, 2/10, 3/10, 4/10, 5/10, 6/10, 7/10⟩

/-- A zero vector position. -/
def pos0 : ℝ × ℝ × ℝ := (0, 0, 0)

/-- Birks-style configuration with zero ambient field: ModBox and LArQL off,
unit coefficients, field distortion disabled. -/
noncomputable def cC4 : ISCalcCorrelated :=
  ISCalcCorrelated.init sceOff larOff
    { recombA := 1, recombk := 1, modBoxA := 1, modBoxB := 1,
      useModBoxRecomb := false, useModLarqlRecomb := false,
      larqlChi0A := 1, larqlChi0B := 1, larqlChi0C := 0, larqlChi0D := 0,
      larqlAlpha := 1, larqlBeta := 1, geVToElectrons := 1000 }
    ⟨0, 1⟩

/-- Detector properties with zero ambient field. -/
noncomputable def dpC4 : DetectorProperties := ⟨0, 1⟩

/-- A 1 MeV, 1 cm electron deposit at the origin. -/
noncomputable def edepC4 : SimEnergyDeposit := ⟨1, 1, pos0, 11⟩

/-- Calculator with per-particle-type yields enabled (for the C8 witness). -/
noncomputable def cC8 : ISCalcCorrelated :=
  ISCalcCorrelated.init sceOff larPerType
    { recombA := 1, recombk := 1, modBoxA := 1, modBoxB := 1,
      useModBoxRecomb := true, useModLarqlRecomb := false,
      larqlChi0A := 1, larqlChi0B := 1, larqlChi0C := 0, larqlChi0D := 0,
      larqlAlpha := 1, larqlBeta := 1, geVToElectrons := 1000 }
    ⟨1, 1⟩

/-- Modified-Box configuration with the LArQL low-field correction enabled,
tuned so that for a zero-length step the correction term evaluates to `1`. -/
noncomputable def cC1 : ISCalcCorrelated :=
  ISCalcCorrelated.init sceOff larOff
    { recombA := 0, recombk := 0, modBoxA := 1, modBoxB := 1,
      useModBoxRecomb := true, useModLarqlRecomb := true,
      larqlChi0A := 2, larqlChi0B := 1, larqlChi0C := 0, larqlChi0D := 0,
      larqlAlpha := 0, larqlBeta := 1, geVToElectrons := 1000 }
    ⟨0, 1⟩

/-- Detector properties for the C1 counterexample (zero ambient field). -/
noncomputable def dpC1 : DetectorProperties := ⟨0, 1⟩

/-- A 5 MeV deposit with zero step length. -/
noncomputable def edepC1 : SimEnergyDeposit := ⟨5, 0, pos0, 11⟩

/-- Modified-Box configuration with the LArQL correction disabled
(for the C1 witness). -/
noncomputable def cC1w : ISCalcCorrelated :=
  ISCalcCorrelated.init sceOff larOff
    { recombA := 1, recombk := 1, modBoxA := 1, modBoxB := 1,
      useModBoxRecomb := true, useModLarqlRecomb := false,
      larqlChi0A := 1, larqlChi0B := 1, larqlChi0C := 0, larqlChi0D := 0,
      larqlAlpha := 1, larqlBeta := 1, geVToElectrons := 1000 }
    ⟨1, 1⟩

/-- Detector properties for the C1 witness (unit ambient field). -/
noncomputable def dpC1w : DetectorProperties := ⟨1, 1⟩

/-- A 5 MeV zero-step deposit (for the C1 witness). -/
noncomputable def edepC1w : SimEnergyDeposit := ⟨5, 0, pos0, 11⟩

/-- Birks-style configuration with a huge recombination amplitude, so the
electron count exceeds the total-quanta estimate (for the C3 witness). -/
noncomputable def cC3lar : LArG4Parameters :=
  { recombA := 1000000000, recombk := 0, modBoxA := 1, modBoxB := 1,
    useModBoxRecomb := false, useModLarqlRecomb := false,
    larqlChi0A := 1, larqlChi0B := 1, larqlChi0C := 0, larqlChi0D := 0,
    larqlAlpha := 1, larqlBeta := 1, geVToElectrons := 1000 }

/-- Detector properties for the C3 witness (unit ambient field). -/
noncomputable def dpC3 : DetectorProperties := ⟨1, 1⟩

/-- A 1 MeV, 1 cm deposit (for the C3 witness). -/
noncomputable def edepC3 : SimEnergyDeposit := ⟨1, 1, pos0, 11⟩

/-- Detector properties for C5 (unit ambient field). -/
noncomputable def dpC5 : DetectorProperties := ⟨1, 1⟩

/-- Modified-Box + LArQL configuration with adjustable field-correction
constants `alpha`, `beta`. -/
noncomputable def cC5 (a b : ℝ) : ISCalcCorrelated :=
  ISCalcCorrelated.init sceOff larOff
    { recombA := 1, recombk := 1, modBoxA := 1, modBoxB := 1,
      useModBoxRecomb := true, useModLarqlRecomb := true,
      larqlChi0A := 1, larqlChi0B := 1, larqlChi0C := 0, larqlChi0D := 0,
      larqlAlpha := a, larqlBeta := b, geVToElectrons := 1000 }
    dpC5

/-! ## Helper lemmas -/

/-- For a non-positive step length the clamped dE/dx evaluates to `1`. -/
theorem dEdxValue_of_nonpos (e : ℝ) {ds : ℝ} (h : ds ≤ 0) :
    dEdxValue e ds = some 1 := by
  unfold dEdxValue
  rw [if_pos h]
  norm_num

/-- For a positive step length with `e / ds ≤ 1` the clamped dE/dx is `1`. -/
theorem dEdxValue_of_le_one (e : ℝ) {ds : ℝ} (h : 0 < ds) (hle : e / ds ≤ 1) :
    dEdxValue e ds = some 1 := by
  unfold dEdxValue div?
  rw [if_neg (not_le.mpr h), if_neg h.ne']
  rcases lt_or_eq_of_le hle with h1 | h1
  · simp [h1]
  · simp [h1]

/-- The recombination fraction only sees the step length through its sign:
non-positive steps behave like a zero-length step. -/
theorem recombWithLarql_of_nonpos (c : ISCalcCorrelated) {ds : ℝ} (h : ds ≤ 0)
    (dEdx E : ℝ) : c.recombWithLarql ds dEdx E = c.recombWithLarql 0 dEdx E := by
  unfold ISCalcCorrelated.recombWithLarql ISCalcCorrelated.recombBranch
  simp only [not_lt.mpr h, gt_iff_lt, lt_self_iff_false, if_false, if_neg (not_lt.mpr h)]

/-- The recombination fraction only sees the step length through its sign:
positive steps behave like a unit step. -/
theorem recombWithLarql_of_pos (c : ISCalcCorrelated) {ds : ℝ} (h : 0 < ds)
    (dEdx E : ℝ) : c.recombWithLarql ds dEdx E = c.recombWithLarql 1 dEdx E := by
  unfold ISCalcCorrelated.recombWithLarql ISCalcCorrelated.recombBranch
  simp only [gt_iff_lt, if_pos h, if_pos (zero_lt_one (α := ℝ))]

/-- Inversion for a successful run of `CalcIonAndScint`: every intermediate
guarded division succeeded, and the output fields are the source formulas. -/
theorem CalcIonAndScint_inv (c : ISCalcCorrelated) (detProp : DetectorProperties)
    (edep : SimEnergyDeposit) (r : ISCalcData)
    (h : c.CalcIonAndScint detProp edep = some r) :
    ∃ Nq dEdx rb w,
      div? edep.energy c.fWph = some Nq ∧
      dEdxValue edep.energy edep.stepLength = some dEdx ∧
      c.recombWithLarql edep.stepLength dEdx (c.EFieldAtStep detProp.efield edep) =
        some rb ∧
      div? edep.energy c.fWion = some w ∧
      r = ⟨edep.energy, w * rb, (Nq - w * rb) * c.fScintPreScale,
           c.GetScintYieldRatio edep⟩ := by
  unfold ISCalcCorrelated.CalcIonAndScint at h
  dsimp only at h
  rw [Option.bind_eq_bind'] at h
  cases hN : div? edep.energy c.fWph with
  | none => rw [hN] at h; simp at h
  | some Nq =>
    rw [hN, Option.some_bind'] at h
    rw [Option.bind_eq_bind'] at h
    cases hD : dEdxValue edep.energy edep.stepLength with
    | none => rw [hD] at h; simp at h
    | some d =>
      rw [hD, Option.some_bind'] at h
      rw [Option.bind_eq_bind'] at h
      cases hR : c.recombWithLarql edep.stepLength d (c.EFieldAtStep detProp.efield edep) with
      | none => rw [hR] at h; simp at h
      | some rb =>
        rw [hR, Option.some_bind'] at h
        rw [Option.bind_eq_bind'] at h
        cases hW : div? edep.energy c.fWion with
        | none => rw [hW] at h; simp at h
        | some w =>
          rw [hW] at h
          simp only [Option.map_some', Option.some_bind', Option.some_inj] at h
          exact ⟨Nq, d, rb, w, rfl, rfl, hR, rfl, h.symm⟩

/-- Lemma: `hypot3` is the Euclidean norm on `EuclideanSpace ℝ (Fin 3)`. -/
theorem hypot3_eq_norm (x y z : ℝ) :
    hypot3 x y z =
      ‖((WithLp.equiv 2 (Fin 3 → ℝ)).symm ![x, y, z] : EuclideanSpace ℝ (Fin 3))‖ := by
  rw [EuclideanSpace.norm_eq]
  simp [hypot3, Fin.sum_univ_three, Real.norm_eq_abs, sq_abs]

/-- Claim C4: in the Birks-style branch the recombination formula divides by
the effective local field with no guard; with a zero ambient field and field
distortion disabled the divisor is zero, so the guarded branch of the
embedded division (`none`) is reached, and the whole computation returns
`none` on this path. -/
theorem claim4_birks_divzero_reachable :
    cC4.EFieldAtStep dpC4.efield edepC4 = 0 ∧
    cC4.recombBranch 1 1 0 = none ∧
    cC4.CalcIonAndScint dpC4 edepC4 = none := by
  refine ⟨rfl, ?_, ?_⟩
  · norm_num [cC4, sceOff, larOff, ISCalcCorrelated.init,
      ISCalcCorrelated.recombBranch, div?]
  · norm_num [cC4, dpC4, edepC4, pos0, sceOff, larOff, ISCalcCorrelated.init,
      ISCalcCorrelated.CalcIonAndScint, ISCalcCorrelated.recombWithLarql,
      ISCalcCorrelated.recombBranch, ISCalcCorrelated.EFieldAtStep,
      ISCalcCorrelated.EscapingEFraction, ISCalcCorrelated.FieldCorrection,
      dEdxValue, div?]

/-- Claim C6: the clamped `dEdx` value that `CalcIonAndScint` feeds to the
LArQL functions `EscapingEFraction` and `FieldCorrection` is always `≥ 1`,
for every energy and step length, hence its logarithm is nonnegative. -/
theorem claim6_dEdx_ge_one (energy ds d : ℝ) (h : dEdxValue energy ds = some d) :
    1 ≤ d ∧ 0 ≤ Real.log d := by
  have h1 : 1 ≤ d := by
    unfold dEdxValue div? at h
    split at h
    · simp only [Option.map_some', Option.some_inj] at h
      rw [if_pos (by norm_num : (0:ℝ) < 1)] at h
      rw [← h]
    · split at h
      · simp at h
      · simp only [Option.map_some', Option.some_inj] at h
        rcases lt_or_le (energy / ds) 1 with hh | hh
        · rw [if_pos hh] at h; rw [← h]
        · rw [if_neg (not_lt.mpr hh)] at h; linarith [h ▸ hh]
  exact ⟨h1, Real.log_nonneg h1⟩

/-- Witness for C6: a zero-length step clamps `dEdx` to exactly `1`. -/
theorem claim6_witness : 1 ≤ (1:ℝ) ∧ 0 ≤ Real.log 1 :=
  claim6_dEdx_ge_one 2 0 1 (by norm_num [dEdxValue])

/-- Claim C7: the effective local field equals the ambient baseline when the
field distortion is disabled, and otherwise the baseline times the Euclidean
norm of `(1 + dx, dy, dz)` with the offsets taken at the deposit midpoint. -/
theorem claim7_efield_at_step (c : ISCalcCorrelated) (efield : ℝ)
    (edep : SimEnergyDeposit) :
    c.EFieldAtStep efield edep =
      if c.fSCE.enableSimEfieldSCE then
        efield *
          ‖((WithLp.equiv 2 (Fin 3 → ℝ)).symm
              ![1 + (c.fSCE.getEfieldOffsets edep.midPoint).1,
                (c.fSCE.getEfieldOffsets edep.midPoint).2.1,
                (c.fSCE.getEfieldOffsets edep.midPoint).2.2] :
              EuclideanSpace ℝ (Fin 3))‖
      else efield := by
  unfold ISCalcCorrelated.EFieldAtStep
  cases hb : c.fSCE.enableSimEfieldSCE with
  | false => simp
  | true => simp [hypot3_eq_norm]

/-- Claim C8: the yield-ratio lookup is total: global ratio when the
per-particle-type toggle is off; else proton for 2212, muon for ±13, pion for
±211, kaon for ±321, alpha for 1000020040, the electron ratio for 11, -11,
22, and the electron ratio as fallback for every other code. -/
theorem claim8_yield_ratio_total (c : ISCalcCorrelated) (edep : SimEnergyDeposit) :
    (c.fLArProp.scintByParticleType = false →
        c.GetScintYieldRatio edep = c.fLArProp.scintYieldRatio) ∧
    (c.fLArProp.scintByParticleType = true →
      (edep.pdgCode = 2212 →
        c.GetScintYieldRatio edep = c.fLArProp.protonScintYieldRatio) ∧
      (edep.pdgCode = 13 ∨ edep.pdgCode = -13 →
        c.GetScintYieldRatio edep = c.fLArProp.muonScintYieldRatio) ∧
      (edep.pdgCode = 211 ∨ edep.pdgCode = -211 →
        c.GetScintYieldRatio edep = c.fLArProp.pionScintYieldRatio) ∧
      (edep.pdgCode = 321 ∨ edep.pdgCode = -321 →
        c.GetScintYieldRatio edep = c.fLArProp.kaonScintYieldRatio) ∧
      (edep.pdgCode = 1000020040 →
        c.GetScintYieldRatio edep = c.fLArProp.alphaScintYieldRatio) ∧
      (edep.pdgCode = 11 ∨ edep.pdgCode = -11 ∨ edep.pdgCode = 22 →
        c.GetScintYieldRatio edep = c.fLArProp.electronScintYieldRatio) ∧
      (edep.pdgCode ≠ 2212 → edep.pdgCode ≠ 13 → edep.pdgCode ≠ -13 →
       edep.pdgCode ≠ 211 → edep.pdgCode ≠ -211 → edep.pdgCode ≠ 321 →
       edep.pdgCode ≠ -321 → edep.pdgCode ≠ 1000020040 →
        c.GetScintYieldRatio edep = c.fLArProp.electronScintYieldRatio)) := by
  unfold ISCalcCorrelated.GetScintYieldRatio
  constructor
  · intro hoff; simp [hoff]
  · intro hon
    refine ⟨?_, ?_, ?_, ?_, ?_, ?_, ?_⟩ <;> intro hp
    · simp [hon, hp]
    · rcases hp with hp | hp <;> simp [hon, hp]
    · rcases hp with hp | hp <;> simp [hon, hp]
    · rcases hp with hp | hp <;> simp [hon, hp]
    · simp [hon, hp]
    · rcases hp with hp | hp | hp <;> simp [hon, hp]
    · intro h2 h3 h4 h5 h6 h7 h8
      simp [hon, hp, h2, h3, h4, h5, h6, h7, h8]

/-- Witness for C8: the unrecognized code 999999 falls back to the electron
ratio, and 2212 hits the proton ratio. -/
theorem claim8_witness :
    cC8.GetScintYieldRatio ⟨0, 0, pos0, 999999⟩ =
      cC8.fLArProp.electronScintYieldRatio ∧
    cC8.GetScintYieldRatio ⟨0, 0, pos0, 2212⟩ =
      cC8.fLArProp.protonScintYieldRatio := by
  constructor
  · exact ((claim8_yield_ratio_total cC8 ⟨0, 0, pos0, 999999⟩).2 rfl).2.2.2.2.2.2
      (by norm_num) (by norm_num) (by norm_num) (by norm_num) (by norm_num)
      (by norm_num) (by norm_num) (by norm_num)
  · exact ((claim8_yield_ratio_total cC8 ⟨0, 0, pos0, 2212⟩).2 rfl).1 rfl

/-- Claim C9: a deposit with a negative step length is computed exactly like
the same deposit with a zero step length. -/
theorem claim9_negative_step (c : ISCalcCorrelated) (detProp : DetectorProperties)
    (e ds : ℝ) (pos : ℝ × ℝ × ℝ) (pdg : ℤ) (h : ds < 0) :
    c.CalcIonAndScint detProp ⟨e, ds, pos, pdg⟩ =
    c.CalcIonAndScint detProp ⟨e, 0, pos, pdg⟩ := by
  unfold ISCalcCorrelated.CalcIonAndScint ISCalcCorrelated.EFieldAtStep
    ISCalcCorrelated.GetScintYieldRatio
  simp only [dEdxValue_of_nonpos e h.le, dEdxValue_of_nonpos e le_rfl,
    recombWithLarql_of_nonpos c h.le, recombWithLarql_of_nonpos c le_rfl]

/-- Witness for C9 at step length `-1`. -/
theorem claim9_witness :
    cC4.CalcIonAndScint dpC4 ⟨1, -1, pos0, 11⟩ =
    cC4.CalcIonAndScint dpC4 ⟨1, 0, pos0, 11⟩ :=
  claim9_negative_step cC4 dpC4 1 (-1) pos0 11 (by norm_num)

/-- Claim C10: the particle code does not interfere with the energy, electron
and photon outputs: two deposits equal except for the PDG code produce the
same first three result fields. -/
theorem claim10_pdg_noninterference (c : ISCalcCorrelated)
    (detProp : DetectorProperties) (e ds : ℝ) (pos : ℝ × ℝ × ℝ) (p q : ℤ) :
    (c.CalcIonAndScint detProp ⟨e, ds, pos, p⟩).map
        (fun r => (r.energyDeposit, r.numElectrons, r.numPhotons)) =
    (c.CalcIonAndScint detProp ⟨e, ds, pos, q⟩).map
        (fun r => (r.energyDeposit, r.numElectrons, r.numPhotons)) := by
  unfold ISCalcCorrelated.CalcIonAndScint ISCalcCorrelated.EFieldAtStep
  cases hN : div? e c.fWph with
  | none => simp [hN]
  | some Nq =>
    cases hD : dEdxValue e ds with
    | none => simp [hN, hD]
    | some d =>
      cases hR : c.recombWithLarql ds d
          (if !c.fSCE.enableSimEfieldSCE then detProp.efield
           else
             detProp.efield *
               hypot3 (1 + (c.fSCE.getEfieldOffsets pos).1)
                 (c.fSCE.getEfieldOffsets pos).2.1
                 (c.fSCE.getEfieldOffsets pos).2.2) with
      | none => simp [hN, hD, hR]
      | some rb =>
        cases hW : div? e c.fWion with
        | none => simp [hN, hD, hR, hW]
        | some w => simp [hN, hD, hR, hW]

/-- Claim C2: for equal energy, position, particle code and ambient field,
a deposit with `e/ds < 1` and one with `e/ds = 1` (both positive step
lengths) produce identical results: the dE/dx floor-clamp happens before any
use of dE/dx. -/
theorem claim2_dEdx_floor_equiv (c : ISCalcCorrelated) (detProp : DetectorProperties)
    (e : ℝ) (pos : ℝ × ℝ × ℝ) (pdg : ℤ) (ds₁ ds₂ : ℝ)
    (h1 : 0 < ds₁) (h2 : 0 < ds₂) (hlt : e / ds₁ < 1) (heq : e / ds₂ = 1) :
    c.CalcIonAndScint detProp ⟨e, ds₁, pos, pdg⟩ =
    c.CalcIonAndScint detProp ⟨e, ds₂, pos, pdg⟩ := by
  unfold ISCalcCorrelated.CalcIonAndScint ISCalcCorrelated.EFieldAtStep
    ISCalcCorrelated.GetScintYieldRatio
  simp only [dEdxValue_of_le_one e h1 hlt.le, dEdxValue_of_le_one e h2 heq.le,
    recombWithLarql_of_pos c h1, recombWithLarql_of_pos c h2]

/-- Witness for C2: energy `1/2` with step lengths `1` and `1/2`. -/
theorem claim2_witness :
    cC4.CalcIonAndScint dpC4 ⟨1/2, 1, pos0, 11⟩ =
    cC4.CalcIonAndScint dpC4 ⟨1/2, 1/2, pos0, 11⟩ :=
  claim2_dEdx_floor_equiv cC4 dpC4 (1/2) pos0 11 1 (1/2)
    (by norm_num) (by norm_num) (by norm_num) (by norm_num)

/-- Counterexample to C1 as stated: under the Modified-Box model, a deposit
with zero step length can still get a nonzero recombination fraction (here
`1`) and a nonzero electron count (here `5`) once the LArQL low-field
correction is enabled, because the additive correction is applied after the
zero-step branch. -/
theorem claim1_counterexample :
    cC1.recombWithLarql 0 1 0 = some 1 ∧
    (cC1.CalcIonAndScint dpC1 edepC1).map ISCalcData.numElectrons = some 5 := by
  constructor <;>
    norm_num [cC1, dpC1, edepC1, pos0, sceOff, larOff, ISCalcCorrelated.init,
      ISCalcCorrelated.CalcIonAndScint, ISCalcCorrelated.recombWithLarql,
      ISCalcCorrelated.recombBranch, ISCalcCorrelated.EFieldAtStep,
      ISCalcCorrelated.EscapingEFraction, ISCalcCorrelated.FieldCorrection,
      ISCalcCorrelated.GetScintYieldRatio, dEdxValue, div?,
      Real.exp_zero, Real.log_one]

/-- Claim C1 (amended): under the Modified-Box model with the LArQL
low-field correction disabled, a zero-step deposit gets recombination
fraction exactly `0` (whatever the dE/dx and field arguments), and any
successful computation returns electron count `0`. -/
theorem claim1_amended_zero_step (c : ISCalcCorrelated) (detProp : DetectorProperties)
    (edep : SimEnergyDeposit) (hmb : c.fUseModBoxRecomb = true)
    (hlq : c.fUseModLarqlRecomb = false) (hds : edep.stepLength = 0)
    (dEdx EFieldStep : ℝ) :
    c.recombWithLarql edep.stepLength dEdx EFieldStep = some 0 ∧
    ∀ r, c.CalcIonAndScint detProp edep = some r → r.numElectrons = 0 := by
  have hrec : ∀ d E : ℝ, c.recombWithLarql edep.stepLength d E = some 0 := by
    intro d E
    unfold ISCalcCorrelated.recombWithLarql ISCalcCorrelated.recombBranch
    rw [hds]
    simp [hmb, hlq]
  refine ⟨hrec dEdx EFieldStep, fun r hr => ?_⟩
  obtain ⟨Nq, d, rb, w, hN, hD, hR, hW, hr'⟩ := CalcIonAndScint_inv c detProp edep r hr
  rw [hrec d (c.EFieldAtStep detProp.efield edep)] at hR
  have hrb : rb = 0 := (Option.some_inj.mp hR).symm
  rw [hr', hrb]
  simp

/-- Witness for the amended C1 at a concrete configuration. -/
theorem claim1_amended_witness : cC1w.recombWithLarql 0 1 1 = some 0 :=
  (claim1_amended_zero_step cC1w dpC1w edepC1w rfl rfl rfl 1 1).1

/-- Claim C3: for every constructed calculator, a successful computation has
`photons = (Nq - electrons) * scintPreScale` with `Nq = energy / Wph` and
`Wph = 19.5e-6` MeV fixed by the constructor; the value is passed through
unclamped, so whenever the electron count exceeds `Nq` and the pre-scale is
positive the photon count is negative. -/
theorem claim3_photons_anticorrelation (sce : SpaceCharge) (larProp : LArProperties)
    (p : LArG4Parameters) (detProp : DetectorProperties) (edep : SimEnergyDeposit)
    (r : ISCalcData)
    (h : (ISCalcCorrelated.init sce larProp p detProp).CalcIonAndScint detProp edep =
      some r) :
    r.numPhotons =
      (edep.energy / (19.5 * (1 / 1000000)) - r.numElectrons) *
        larProp.scintPreScale ∧
    (0 < larProp.scintPreScale →
      edep.energy / (19.5 * (1 / 1000000)) < r.numElectrons → r.numPhotons < 0) := by
  obtain ⟨Nq, d, rb, w, hN, hD, hR, hW, hr⟩ :=
    CalcIonAndScint_inv _ detProp edep r h
  have hwph : (ISCalcCorrelated.init sce larProp p detProp).fWph =
      19.5 * (1 / 1000000) := rfl
  unfold div? at hN
  rw [hwph, if_neg (by norm_num : ¬(19.5 * (1 / 1000000) : ℝ) = 0)] at hN
  have hNq : Nq = edep.energy / (19.5 * (1 / 1000000)) :=
    (Option.some_inj.mp hN).symm
  have hpre : (ISCalcCorrelated.init sce larProp p detProp).fScintPreScale =
      larProp.scintPreScale := rfl
  rw [hr, hNq, hpre]
  constructor
  · rfl
  · intro hp hlt
    dsimp only at hlt ⊢
    exact mul_neg_of_neg_of_pos (by linarith) hp

/-- Witness for C3: a concrete run whose electron count `10^9` exceeds
`Nq ≈ 5.1e4`, giving a negative photon count. -/
theorem claim3_witness :
    ((1 : ℝ) / (19.5 * (1 / 1000000)) - 1000000000) * 1 < 0 := by
  have heval :
      (ISCalcCorrelated.init sceOff larOff cC3lar dpC3).CalcIonAndScint dpC3 edepC3 =
        some ⟨1, 1000000000, (1 / (19.5 * (1 / 1000000)) - 1000000000) * 1, 1/2⟩ := by
    norm_num [cC3lar, dpC3, edepC3, pos0, sceOff, larOff, ISCalcCorrelated.init,
      ISCalcCorrelated.CalcIonAndScint, ISCalcCorrelated.recombWithLarql,
      ISCalcCorrelated.recombBranch, ISCalcCorrelated.EFieldAtStep,
      ISCalcCorrelated.EscapingEFraction, ISCalcCorrelated.FieldCorrection,
      ISCalcCorrelated.GetScintYieldRatio, dEdxValue, div?]
  have h := claim3_photons_anticorrelation sceOff larOff cC3lar dpC3 edepC3 _ heval
  exact h.2 (by norm_num [larOff]) (by norm_num [edepC3])

/-- Claim C5: whenever the constants `alpha`, `beta` admit a clamp-admissible
`dEdx ≥ 1` with `alpha * ln(dEdx) + beta = 0`, the `FieldCorrection`
denominator vanishes there, the guarded division returns `none`, and with
the low-field correction enabled the whole computation on a deposit
realizing that dE/dx returns `none`. -/
theorem claim5_larql_divzero_reachable (a b d : ℝ) (hd : 1 ≤ d)
    (h0 : a * Real.log d + b = 0) :
    (cC5 a b).FieldCorrection 1 d = none ∧
    (cC5 a b).CalcIonAndScint dpC5 ⟨d, 1, pos0, 11⟩ = none := by
  have hd0 : d ≠ 0 := (lt_of_lt_of_le zero_lt_one hd).ne'
  have hfc : (cC5 a b).FieldCorrection 1 d = none := by
    unfold ISCalcCorrelated.FieldCorrection cC5 ISCalcCorrelated.init div?
    simp [h0]
  refine ⟨hfc, ?_⟩
  have hD : dEdxValue d 1 = some d := by
    unfold dEdxValue div?
    norm_num [not_lt.mpr hd]
  have hR : (cC5 a b).recombWithLarql 1 d 1 = none := by
    unfold ISCalcCorrelated.recombWithLarql ISCalcCorrelated.recombBranch
      ISCalcCorrelated.EscapingEFraction cC5 ISCalcCorrelated.init
    norm_num [div?, hd0, h0, Real.exp_zero, ISCalcCorrelated.FieldCorrection]
  unfold ISCalcCorrelated.CalcIonAndScint ISCalcCorrelated.EFieldAtStep
  simp only [hD]
  have hsce : (cC5 a b).fSCE.enableSimEfieldSCE = false := rfl
  have hwph : (cC5 a b).fWph = 19.5 * (1 / 1000000) := rfl
  have hef : dpC5.efield = (1:ℝ) := rfl
  norm_num [hsce, hwph, hef, div?, hR]

/-- Witness for C5 at `alpha = 1`, `beta = 0`, `dEdx = 1`
(`1 * ln 1 + 0 = 0`). -/
theorem claim5_witness :
    (cC5 1 0).FieldCorrection 1 1 = none ∧
    (cC5 1 0).CalcIonAndScint dpC5 ⟨1, 1, pos0, 11⟩ = none :=
  claim5_larql_divzero_reachable 1 0 1 le_rfl (by simp [Real.log_one])

end LArSim
